import Mathlib

/-!
Verification of the BeAM Value tool (src/main.py).

The program is a single FastAPI endpoint `POST /calculate_beam_value/`.
Form input is validated by pydantic against the `BeAMFormInput` schema
(unit a literal string, both glucose readings strictly positive), then the
handler `calculate_beam_value` looks up a unit conversion factor, converts
both readings to mg/dL, takes the signed difference, classifies it against
the thresholds plus and minus 20, and returns the difference rounded to two
decimal places together with the interpretation string.

Numbers are modelled by the rationals.  The rounding function used by the
handler is the Python builtin `round`, which rounds half to even; it is
modelled exactly by `roundHalfEven` below.
-/

set_option linter.unusedVariables false

-- The Batteries rational arithmetic operations are marked irreducible,
-- which blocks `decide` on concrete rational computations; restore
-- default reducibility for this development so that concrete program runs
-- can be evaluated by the kernel.
set_option allowUnsafeReducibility true

attribute [local semireducible] Rat.add Rat.sub Rat.mul Rat.inv Rat.div Rat.neg Rat.ofScientific

/-- Kernel-computable floor of a rational number. -/
def ratFloor (q : ℚ) : ℤ := q.num / q.den

lemma ratFloor_eq (q : ℚ) : ratFloor q = ⌊q⌋ := Rat.floor_def.symm

/-- Kernel-computable fractional part of a rational number. -/
def ratFract (q : ℚ) : ℚ := q - (ratFloor q : ℚ)

lemma ratFract_eq (q : ℚ) : ratFract q = Int.fract q := by
  rw [ratFract, ratFloor_eq, Int.fract]

/-- Round a rational to the nearest integer, resolving ties to the even
integer (the semantics of the Python builtin `round`). -/
def roundHalfEven (q : ℚ) : ℤ :=
  if ratFract q < 1/2 then ratFloor q
  else if 1/2 < ratFract q then ratFloor q + 1
  else if ratFloor q % 2 = 0 then ratFloor q else ratFloor q + 1

/-- Python `round(x, 2)`: round to two decimal places, ties to even. -/
def roundTo2 (q : ℚ) : ℚ :=
  (roundHalfEven (q * 100) : ℚ) / 100

/-- Form-based input schema of src/main.py (`BeAMFormInput`).  The pydantic
constraints (unit literal, positivity) are enforced by `validate_form`
below, not by the type itself, mirroring how the schema constrains the raw
request. -/
structure BeAMFormInput where
  unit : String
  bedtime_glucose : ℚ
  am_fasting_glucose : ℚ
  deriving DecidableEq

/-- Output schema of src/main.py (`BeAMFormOutput`). -/
structure BeAMFormOutput where
  beam_value : ℚ
  interpretation : String
  deriving DecidableEq

/-- Result of a request: either a success body or an HTTP error response
(status code and detail message), covering both `HTTPException` raised by
the handler and the framework validation error. -/
inductive HandlerResult where
  | ok : BeAMFormOutput → HandlerResult
  | httpError : Nat → String → HandlerResult
  deriving DecidableEq

/-- The `conversion_factors` dictionary lookup of src/main.py lines 80-86:
`{"mmol/L": 18.0, "mg/dL": 1.0}.get(unit)`. -/
def conversion_factors (unit : String) : Option ℚ :=
  if unit = "mmol/L" then some 18
  else if unit = "mg/dL" then some 1
  else none

/-- The classification of src/main.py lines 100-106, applied by the handler
to the (unrounded) beam value. -/
def classify (beam_value : ℚ) : String :=
  if beam_value > 20 then
    "Potential dawn phenomenon; consider adjusting insulin/medication."
  else if beam_value < -20 then
    "Potential nocturnal hypoglycemia; consider dietary adjustments."
  else
    "Overnight glucose levels are well-controlled."

/-- The handler `calculate_beam_value` of src/main.py lines 68-111.  Note
the classification is computed from `beam_value` before rounding; only the
returned `beam_value` field is rounded. -/
def calculate_beam_value (data : BeAMFormInput) : HandlerResult :=
  match conversion_factors data.unit with
  | none =>
      HandlerResult.httpError 400 "Invalid unit. Must be \x27mg/dL\x27 or \x27mmol/L\x27."
  | some conversion_factor =>
      let bedtime_glucose_converted := data.bedtime_glucose * conversion_factor
      let am_fasting_glucose_converted := data.am_fasting_glucose * conversion_factor
      let beam_value := bedtime_glucose_converted - am_fasting_glucose_converted
      HandlerResult.ok
        { beam_value := roundTo2 beam_value
          interpretation := classify beam_value }

/-- Pydantic validation of the raw form fields against `BeAMFormInput`
(src/main.py lines 23-42): `unit` must be one of the two literals and both
readings must satisfy `gt=0`. -/
def validate_form (unit : String) (bedtime_glucose am_fasting_glucose : ℚ) :
    Option BeAMFormInput :=
  if (unit = "mg/dL" ∨ unit = "mmol/L") ∧
      0 < bedtime_glucose ∧ 0 < am_fasting_glucose then
    some ⟨unit, bedtime_glucose, am_fasting_glucose⟩
  else
    none

/-- The endpoint `POST /calculate_beam_value/`: FastAPI validates the form
against `BeAMFormInput` (rejecting invalid requests with status 422 before
the handler runs) and otherwise invokes `calculate_beam_value`. -/
def endpoint (unit : String) (bedtime_glucose am_fasting_glucose : ℚ) :
    HandlerResult :=
  match validate_form unit bedtime_glucose am_fasting_glucose with
  | some data => calculate_beam_value data
  | none => HandlerResult.httpError 422 "request form validation failed"

lemma conversion_factors_mgdl : conversion_factors "mg/dL" = some 1 := rfl

lemma conversion_factors_mmol : conversion_factors "mmol/L" = some 18 := rfl

/-- Closed form of the handler on a recognized mg/dL input. -/
lemma calculate_beam_value_mgdl (a b : ℚ) :
    calculate_beam_value ⟨"mg/dL", a, b⟩ =
      HandlerResult.ok ⟨roundTo2 (a - b), classify (a - b)⟩ := by
  simp [calculate_beam_value, conversion_factors_mgdl, mul_one]

/-- Closed form of the handler on a recognized mmol/L input. -/
lemma calculate_beam_value_mmol (a b : ℚ) :
    calculate_beam_value ⟨"mmol/L", a, b⟩ =
      HandlerResult.ok ⟨roundTo2 (a * 18 - b * 18), classify (a * 18 - b * 18)⟩ := by
  simp [calculate_beam_value, conversion_factors_mmol]

/-- C1: for strictly positive readings with unit mg/dL the handler returns
`beam_value = round(a - b, 2)`. -/
theorem mgdl_beam_value_is_rounded_difference (a b : ℚ)
    (ha : 0 < a) (hb : 0 < b) :
    ∃ interp, calculate_beam_value ⟨"mg/dL", a, b⟩ =
      HandlerResult.ok ⟨roundTo2 (a - b), interp⟩ :=
  ⟨classify (a - b), calculate_beam_value_mgdl a b⟩

/-- Witness for C1 at the concrete input (150, 85). -/
theorem mgdl_beam_value_is_rounded_difference_witness :
    ∃ interp, calculate_beam_value ⟨"mg/dL", 150, 85⟩ =
      HandlerResult.ok ⟨roundTo2 (150 - 85), interp⟩ :=
  mgdl_beam_value_is_rounded_difference 150 85 (by decide) (by decide)

lemma roundHalfEven_def (q : ℚ) :
    roundHalfEven q =
      if Int.fract q < 1/2 then ⌊q⌋
      else if 1/2 < Int.fract q then ⌊q⌋ + 1
      else if ⌊q⌋ % 2 = 0 then ⌊q⌋ else ⌊q⌋ + 1 := by
  rw [roundHalfEven, ratFract_eq, ratFloor_eq]

lemma roundHalfEven_intCast (n : ℤ) : roundHalfEven ((n : ℚ)) = n := by
  rw [roundHalfEven_def, Int.fract_intCast, Int.floor_intCast]
  norm_num

/-- Rounding half to even is an odd function; this is the fact behind the
antisymmetry of the BeAM computation. -/
lemma roundHalfEven_neg (q : ℚ) : roundHalfEven (-q) = -roundHalfEven q := by
  rcases eq_or_ne (Int.fract q) 0 with h0 | h0
  · obtain ⟨n, rfl⟩ : ∃ n : ℤ, q = (n : ℚ) := by
      refine ⟨⌊q⌋, ?_⟩
      have h := Int.floor_add_fract q
      rw [h0, add_zero] at h
      exact h.symm
    rw [← Int.cast_neg, roundHalfEven_intCast, roundHalfEven_intCast]
  · have hfr' : Int.fract (-q) = 1 - Int.fract q := Int.fract_neg h0
    have hlt : (⌊q⌋ : ℚ) < q := by
      have h0' : q - (⌊q⌋ : ℚ) ≠ 0 := by
        rw [Int.fract] at h0
        exact h0
      exact lt_of_le_of_ne (Int.floor_le q) (Ne.symm (sub_ne_zero.mp h0'))
    have hfl' : ⌊-q⌋ = -⌊q⌋ - 1 := by
      apply Int.floor_eq_iff.mpr
      constructor
      · push_cast
        linarith [Int.lt_floor_add_one q]
      · push_cast
        linarith
    have h01 : 0 < Int.fract q := lt_of_le_of_ne (Int.fract_nonneg q) (Ne.symm h0)
    have h1 : Int.fract q < 1 := Int.fract_lt_one q
    rw [roundHalfEven_def (-q), roundHalfEven_def q, hfr', hfl']
    split_ifs <;> first | omega | (exfalso; linarith)

lemma roundTo2_neg (q : ℚ) : roundTo2 (-q) = -roundTo2 q := by
  unfold roundTo2
  rw [neg_mul, roundHalfEven_neg]
  push_cast
  ring

/-- Closed form of the handler for any recognized conversion factor. -/
lemma calculate_beam_value_eq_of (u : String) (a b f v : ℚ)
    (hf : conversion_factors u = some f) (hv : a * f - b * f = v) :
    calculate_beam_value ⟨u, a, b⟩ =
      HandlerResult.ok ⟨roundTo2 v, classify v⟩ := by
  simp only [calculate_beam_value, hf]
  rw [hv]

/-- C2: for strictly positive readings with unit mmol/L both readings are
scaled by 18 and the handler returns `beam_value = round(18*a - 18*b, 2)`. -/
theorem mmol_beam_value_is_rounded_scaled_difference (a b : ℚ)
    (ha : 0 < a) (hb : 0 < b) :
    ∃ interp, calculate_beam_value ⟨"mmol/L", a, b⟩ =
      HandlerResult.ok ⟨roundTo2 (18 * a - 18 * b), interp⟩ := by
  refine ⟨classify (a * 18 - b * 18), ?_⟩
  rw [calculate_beam_value_mmol, mul_comm 18 a, mul_comm 18 b]

/-- Witness for C2 at the concrete input (10, 5). -/
theorem mmol_beam_value_is_rounded_scaled_difference_witness :
    ∃ interp, calculate_beam_value ⟨"mmol/L", 10, 5⟩ =
      HandlerResult.ok ⟨roundTo2 (18 * 10 - 18 * 5), interp⟩ :=
  mmol_beam_value_is_rounded_scaled_difference 10 5 (by decide) (by decide)

/-- C3 counterexample: on the valid input (bedtime 120.004, am 100, mg/dL)
the handler returns the rounded beam value 20 together with the
dawn-phenomenon interpretation, yet the classification of the returned
(rounded) beam value 20 is the well-controlled label.  So the returned
interpretation is not the classification of the returned rounded value. -/
theorem classification_of_rounded_value_counterexample :
    calculate_beam_value ⟨"mg/dL", 30001/250, 100⟩ =
      HandlerResult.ok
        ⟨20, "Potential dawn phenomenon; consider adjusting insulin/medication."⟩ ∧
    classify (roundTo2 (30001/250 - 100)) =
      "Overnight glucose levels are well-controlled." := by
  constructor <;> decide

/-- C3 (amended): for every valid input the handler classifies the exact
(unrounded) difference and rounds only the returned beam value: the result
is `ok (roundTo2 (a*f - b*f), classify (a*f - b*f))` where `f` is the
conversion factor of the unit. -/
theorem interpretation_classifies_unrounded_difference (u : String) (a b : ℚ)
    (hu : u = "mg/dL" ∨ u = "mmol/L") (ha : 0 < a) (hb : 0 < b) :
    ∃ f, conversion_factors u = some f ∧
      calculate_beam_value ⟨u, a, b⟩ =
        HandlerResult.ok ⟨roundTo2 (a * f - b * f), classify (a * f - b * f)⟩ := by
  rcases hu with h | h <;> subst h
  · exact ⟨1, rfl, calculate_beam_value_eq_of _ a b 1 _ rfl rfl⟩
  · exact ⟨18, rfl, calculate_beam_value_eq_of _ a b 18 _ rfl rfl⟩

/-- Witness for the amended C3 at the counterexample input itself. -/
theorem interpretation_classifies_unrounded_difference_witness :
    ∃ f, conversion_factors "mg/dL" = some f ∧
      calculate_beam_value ⟨"mg/dL", 30001/250, 100⟩ =
        HandlerResult.ok
          ⟨roundTo2 (30001/250 * f - 100 * f), classify (30001/250 * f - 100 * f)⟩ :=
  interpretation_classifies_unrounded_difference "mg/dL" (30001/250) 100
    (Or.inl rfl) (by decide) (by decide)

/-- C4: the classification thresholds are strict inequalities, so the
boundary values are inclusive on the well-controlled side: an exact beam
value of 20 or -20 is well-controlled, while 20.01 is dawn phenomenon and
-20.01 is nocturnal hypoglycemia. -/
theorem classification_boundaries_non_strict (u : String) (a b f : ℚ)
    (hu : u = "mg/dL" ∨ u = "mmol/L") (ha : 0 < a) (hb : 0 < b)
    (hf : conversion_factors u = some f) :
    (a * f - b * f = 20 → calculate_beam_value ⟨u, a, b⟩ =
      HandlerResult.ok ⟨20, "Overnight glucose levels are well-controlled."⟩) ∧
    (a * f - b * f = -20 → calculate_beam_value ⟨u, a, b⟩ =
      HandlerResult.ok ⟨-20, "Overnight glucose levels are well-controlled."⟩) ∧
    (a * f - b * f = 2001/100 → calculate_beam_value ⟨u, a, b⟩ =
      HandlerResult.ok
        ⟨2001/100, "Potential dawn phenomenon; consider adjusting insulin/medication."⟩) ∧
    (a * f - b * f = -(2001/100) → calculate_beam_value ⟨u, a, b⟩ =
      HandlerResult.ok
        ⟨-(2001/100), "Potential nocturnal hypoglycemia; consider dietary adjustments."⟩) := by
  refine ⟨fun h => ?_, fun h => ?_, fun h => ?_, fun h => ?_⟩ <;>
    rw [calculate_beam_value_eq_of u a b f _ hf h] <;> decide

/-- Witness for C4: all four boundary values realized by concrete valid
mg/dL inputs. -/
theorem classification_boundaries_non_strict_witness :
    (calculate_beam_value ⟨"mg/dL", 21, 1⟩ =
      HandlerResult.ok ⟨20, "Overnight glucose levels are well-controlled."⟩) ∧
    (calculate_beam_value ⟨"mg/dL", 1, 21⟩ =
      HandlerResult.ok ⟨-20, "Overnight glucose levels are well-controlled."⟩) ∧
    (calculate_beam_value ⟨"mg/dL", 2101/100, 1⟩ =
      HandlerResult.ok
        ⟨2001/100, "Potential dawn phenomenon; consider adjusting insulin/medication."⟩) ∧
    (calculate_beam_value ⟨"mg/dL", 1, 2101/100⟩ =
      HandlerResult.ok
        ⟨-(2001/100), "Potential nocturnal hypoglycemia; consider dietary adjustments."⟩) :=
  ⟨(classification_boundaries_non_strict "mg/dL" 21 1 1 (Or.inl rfl)
      (by decide) (by decide) rfl).1 (by decide),
   (classification_boundaries_non_strict "mg/dL" 1 21 1 (Or.inl rfl)
      (by decide) (by decide) rfl).2.1 (by decide),
   (classification_boundaries_non_strict "mg/dL" (2101/100) 1 1 (Or.inl rfl)
      (by decide) (by decide) rfl).2.2.1 (by decide),
   (classification_boundaries_non_strict "mg/dL" 1 (2101/100) 1 (Or.inl rfl)
      (by decide) (by decide) rfl).2.2.2 (by decide)⟩

/-- C5: the endpoint succeeds exactly on valid inputs (recognized unit and
strictly positive readings); every invalid request is rejected with a
client-error (4xx) response and no success body is produced. -/
theorem endpoint_success_iff_valid (u : String) (a b : ℚ) :
    ((∃ out, endpoint u a b = HandlerResult.ok out) ↔
      ((u = "mg/dL" ∨ u = "mmol/L") ∧ 0 < a ∧ 0 < b)) ∧
    (¬((u = "mg/dL" ∨ u = "mmol/L") ∧ 0 < a ∧ 0 < b) →
      ∃ status detail, endpoint u a b = HandlerResult.httpError status detail ∧
        400 ≤ status ∧ status < 500) := by
  by_cases hv : (u = "mg/dL" ∨ u = "mmol/L") ∧ 0 < a ∧ 0 < b
  · have he : endpoint u a b = calculate_beam_value ⟨u, a, b⟩ := by
      simp [endpoint, validate_form, hv]
    refine ⟨⟨fun _ => hv, fun _ => ?_⟩, fun hcon => absurd hv hcon⟩
    rcases hv.1 with h | h <;> subst h
    · exact ⟨_, by rw [he, calculate_beam_value_eq_of "mg/dL" a b 1 (a * 1 - b * 1) rfl rfl]⟩
    · exact ⟨_, by rw [he, calculate_beam_value_eq_of "mmol/L" a b 18 (a * 18 - b * 18) rfl rfl]⟩
  · have he : endpoint u a b = HandlerResult.httpError 422 "request form validation failed" := by
      simp [endpoint, validate_form, hv]
    refine ⟨⟨?_, fun h => absurd h hv⟩, fun _ => ⟨422, _, he, by norm_num⟩⟩
    rintro ⟨out, hout⟩
    rw [he] at hout
    exact HandlerResult.noConfusion hout

/-- Witness for C5: a rejected invalid-unit request, a rejected
non-positive reading, and an accepted valid request. -/
theorem endpoint_success_iff_valid_witness :
    (∃ status detail, endpoint "mol/L" 1 1 = HandlerResult.httpError status detail ∧
      400 ≤ status ∧ status < 500) ∧
    (∃ status detail, endpoint "mg/dL" 0 1 = HandlerResult.httpError status detail ∧
      400 ≤ status ∧ status < 500) ∧
    (∃ out, endpoint "mg/dL" 150 85 = HandlerResult.ok out) :=
  ⟨(endpoint_success_iff_valid "mol/L" 1 1).2 (by decide),
   (endpoint_success_iff_valid "mg/dL" 0 1).2 (by decide),
   (endpoint_success_iff_valid "mg/dL" 150 85).1.mpr (by decide)⟩

lemma classify_cases (x : ℚ) :
    classify x = "Potential dawn phenomenon; consider adjusting insulin/medication." ∨
    classify x = "Potential nocturnal hypoglycemia; consider dietary adjustments." ∨
    classify x = "Overnight glucose levels are well-controlled." := by
  unfold classify
  split_ifs <;> simp

/-- C6: on every valid input the returned interpretation is one of the
three fixed labels. -/
theorem interpretation_is_one_of_three_labels (u : String) (a b : ℚ)
    (hu : u = "mg/dL" ∨ u = "mmol/L") (ha : 0 < a) (hb : 0 < b) :
    ∃ v i, calculate_beam_value ⟨u, a, b⟩ = HandlerResult.ok ⟨v, i⟩ ∧
      (i = "Potential dawn phenomenon; consider adjusting insulin/medication." ∨
       i = "Potential nocturnal hypoglycemia; consider dietary adjustments." ∨
       i = "Overnight glucose levels are well-controlled.") := by
  rcases hu with h | h <;> subst h
  · exact ⟨_, _, calculate_beam_value_mgdl a b, classify_cases _⟩
  · exact ⟨_, _, calculate_beam_value_mmol a b, classify_cases _⟩

/-- Witness for C6 at the concrete input (mg/dL, 150, 85). -/
theorem interpretation_is_one_of_three_labels_witness :
    ∃ v i, calculate_beam_value ⟨"mg/dL", 150, 85⟩ = HandlerResult.ok ⟨v, i⟩ ∧
      (i = "Potential dawn phenomenon; consider adjusting insulin/medication." ∨
       i = "Potential nocturnal hypoglycemia; consider dietary adjustments." ∨
       i = "Overnight glucose levels are well-controlled.") :=
  interpretation_is_one_of_three_labels "mg/dL" 150 85 (Or.inl rfl)
    (by decide) (by decide)

/-- C7: the handler is a pure function of the three input fields: two
invocations on fieldwise-identical inputs return identical results. -/
theorem handler_is_deterministic (d1 d2 : BeAMFormInput)
    (hu : d1.unit = d2.unit) (hb : d1.bedtime_glucose = d2.bedtime_glucose)
    (ha : d1.am_fasting_glucose = d2.am_fasting_glucose) :
    calculate_beam_value d1 = calculate_beam_value d2 := by
  have hd : d1 = d2 := by
    cases d1
    cases d2
    simp_all
  rw [hd]

/-- Witness for C7 at two fieldwise-identical concrete inputs. -/
theorem handler_is_deterministic_witness :
    calculate_beam_value ⟨"mg/dL", 150, 85⟩ = calculate_beam_value ⟨"mg/dL", 150, 85⟩ :=
  handler_is_deterministic ⟨"mg/dL", 150, 85⟩ ⟨"mg/dL", 150, 85⟩ rfl rfl rfl

/-- C8: the spec example is unit invariant: (120.5, 90, mg/dL) and the
same readings divided by 18 in mmol/L both give beam value 30.5 with the
dawn-phenomenon interpretation (exactly, in rational arithmetic). -/
theorem unit_invariance_example :
    calculate_beam_value ⟨"mg/dL", 120.5, 90.0⟩ =
      HandlerResult.ok
        ⟨30.5, "Potential dawn phenomenon; consider adjusting insulin/medication."⟩ ∧
    calculate_beam_value ⟨"mmol/L", 120.5/18, 90.0/18⟩ =
      HandlerResult.ok
        ⟨30.5, "Potential dawn phenomenon; consider adjusting insulin/medication."⟩ := by
  constructor <;> decide

/-- C9: under the schema precondition that the unit is one of the two
literals, the conversion-factor lookup succeeds and the in-handler
HTTP 400 branch (indeed any error branch of the handler) is unreachable. -/
theorem conversion_lookup_total_on_schema (d : BeAMFormInput)
    (hu : d.unit = "mg/dL" ∨ d.unit = "mmol/L") :
    conversion_factors d.unit ≠ none ∧
    ∀ status detail, calculate_beam_value d ≠ HandlerResult.httpError status detail := by
  obtain ⟨u, a, b⟩ := d
  dsimp only at hu
  rcases hu with h | h <;> subst h <;> dsimp only
  · refine ⟨by decide, fun status detail hcon => ?_⟩
    rw [calculate_beam_value_mgdl] at hcon
    exact HandlerResult.noConfusion hcon
  · refine ⟨by decide, fun status detail hcon => ?_⟩
    rw [calculate_beam_value_mmol] at hcon
    exact HandlerResult.noConfusion hcon

/-- Witness for C9 at the concrete schema-valid input (mmol/L, 3, 4). -/
theorem conversion_lookup_total_on_schema_witness :
    conversion_factors (BeAMFormInput.mk "mmol/L" 3 4).unit ≠ none ∧
    ∀ status detail,
      calculate_beam_value ⟨"mmol/L", 3, 4⟩ ≠ HandlerResult.httpError status detail :=
  conversion_lookup_total_on_schema ⟨"mmol/L", 3, 4⟩ (Or.inr rfl)

lemma classify_neg_swap (x : ℚ) :
    (classify x = "Potential dawn phenomenon; consider adjusting insulin/medication." →
      classify (-x) = "Potential nocturnal hypoglycemia; consider dietary adjustments.") ∧
    (classify x = "Potential nocturnal hypoglycemia; consider dietary adjustments." →
      classify (-x) = "Potential dawn phenomenon; consider adjusting insulin/medication.") ∧
    (classify x = "Overnight glucose levels are well-controlled." →
      classify (-x) = "Overnight glucose levels are well-controlled.") := by
  unfold classify
  refine ⟨?_, ?_, ?_⟩ <;> intro h <;> split_ifs at h ⊢ <;>
    first
      | rfl
      | (exfalso; linarith)
      | (exact absurd h (by decide))

/-- C10: swapping the two readings (same unit) negates the returned beam
value and swaps the dawn-phenomenon and nocturnal-hypoglycemia
interpretations while preserving the well-controlled one. -/
theorem swap_negates_beam_value_and_swaps_interpretation (u : String) (a b : ℚ)
    (hu : u = "mg/dL" ∨ u = "mmol/L") (ha : 0 < a) (hb : 0 < b) :
    ∃ v i v2 i2,
      calculate_beam_value ⟨u, a, b⟩ = HandlerResult.ok ⟨v, i⟩ ∧
      calculate_beam_value ⟨u, b, a⟩ = HandlerResult.ok ⟨v2, i2⟩ ∧
      v2 = -v ∧
      (i = "Potential dawn phenomenon; consider adjusting insulin/medication." →
        i2 = "Potential nocturnal hypoglycemia; consider dietary adjustments.") ∧
      (i = "Potential nocturnal hypoglycemia; consider dietary adjustments." →
        i2 = "Potential dawn phenomenon; consider adjusting insulin/medication.") ∧
      (i = "Overnight glucose levels are well-controlled." →
        i2 = "Overnight glucose levels are well-controlled.") := by
  obtain ⟨f, hf⟩ : ∃ f, conversion_factors u = some f := by
    rcases hu with h | h <;> subst h
    · exact ⟨1, rfl⟩
    · exact ⟨18, rfl⟩
  have hswap : b * f - a * f = -(a * f - b * f) := by ring
  refine ⟨roundTo2 (a * f - b * f), classify (a * f - b * f),
    roundTo2 (b * f - a * f), classify (b * f - a * f),
    calculate_beam_value_eq_of u a b f _ hf rfl,
    calculate_beam_value_eq_of u b a f _ hf rfl, ?_, ?_, ?_, ?_⟩
  · rw [hswap, roundTo2_neg]
  · rw [hswap]
    exact (classify_neg_swap (a * f - b * f)).1
  · rw [hswap]
    exact (classify_neg_swap (a * f - b * f)).2.1
  · rw [hswap]
    exact (classify_neg_swap (a * f - b * f)).2.2

/-- Witness for C10 at the concrete input (mg/dL, 150, 85) and its swap. -/
theorem swap_negates_beam_value_and_swaps_interpretation_witness :
    ∃ v i v2 i2,
      calculate_beam_value ⟨"mg/dL", 150, 85⟩ = HandlerResult.ok ⟨v, i⟩ ∧
      calculate_beam_value ⟨"mg/dL", 85, 150⟩ = HandlerResult.ok ⟨v2, i2⟩ ∧
      v2 = -v ∧
      (i = "Potential dawn phenomenon; consider adjusting insulin/medication." →
        i2 = "Potential nocturnal hypoglycemia; consider dietary adjustments.") ∧
      (i = "Potential nocturnal hypoglycemia; consider dietary adjustments." →
        i2 = "Potential dawn phenomenon; consider adjusting insulin/medication.") ∧
      (i = "Overnight glucose levels are well-controlled." →
        i2 = "Overnight glucose levels are well-controlled.") :=
  swap_negates_beam_value_and_swaps_interpretation "mg/dL" 150 85 (Or.inl rfl)
    (by decide) (by decide)
